import Mathlib

/-!
Verification of the Real-Debrid FUSE filesystem core (`realdebrid_fs.py`,
`realdebrid_api.py`) against its natural-language specification.

The Python classes `RealDebridFS` and `RealDebridAPI` are shallowly embedded:
their mutable attributes become an explicit `FSState` record threaded through
each operation, remote HTTP behaviour becomes explicit function-valued
parameters (`Remote`, `ReadRemote`), wall-clock time becomes a `Nat` argument,
and a raised `FuseOSError` / unhandled Python exception becomes the
`Except.error` half of a `(Except FSError α) × FSState` result (Python
exceptions do not roll back attribute mutations, so the state component is
always returned alongside the error).
-/

set_option maxHeartbeats 1000000
set_option linter.unusedVariables false

namespace RealDebrid

/-- Error outcomes of a filesystem call.  The first four are
`FuseOSError(errno)` values raised by the code; `remoteExc` is an unhandled
Python exception (e.g. `requests` failure propagating out of
`_get_torrents_structure`). -/
inductive FSError where
  | enoent
  | ebadf
  | eio
  | erofs
  | remoteExc
deriving Repr, DecidableEq

/-- Python dict lookup `d[k]` / `k in d`, on an insertion-ordered
association list. -/
def dictFind {β : Type} (d : List (String × β)) (k : String) : Option β :=
  match d with
  | [] => none
  | (k1, v1) :: rest => if k1 = k then some v1 else dictFind rest k

/-- Python dict assignment `d[k] = v`: replaces the value in place when the
key is present (keeping its position), appends otherwise. -/
def dictInsert {β : Type} (d : List (String × β)) (k : String) (v : β) :
    List (String × β) :=
  match d with
  | [] => [(k, v)]
  | (k1, v1) :: rest =>
      if k1 = k then (k, v) :: rest else (k1, v1) :: dictInsert rest k v

/-- Python `del d[k]` guarded by `if k in d`. -/
def dictErase {β : Type} (d : List (String × β)) (k : String) :
    List (String × β) :=
  match d with
  | [] => []
  | (k1, v1) :: rest =>
      if k1 = k then rest else (k1, v1) :: dictErase rest k

/-- Integer-keyed variant of `dictFind` for the open-file table. -/
def fdFind {β : Type} (d : List (Nat × β)) (k : Nat) : Option β :=
  match d with
  | [] => none
  | (k1, v1) :: rest => if k1 = k then some v1 else fdFind rest k

/-- Integer-keyed variant of `dictInsert` for the open-file table. -/
def fdInsert {β : Type} (d : List (Nat × β)) (k : Nat) (v : β) :
    List (Nat × β) :=
  match d with
  | [] => [(k, v)]
  | (k1, v1) :: rest =>
      if k1 = k then (k, v) :: rest else (k1, v1) :: fdInsert rest k v

/-- Integer-keyed variant of `dictErase` for the open-file table. -/
def fdErase {β : Type} (d : List (Nat × β)) (k : Nat) : List (Nat × β) :=
  match d with
  | [] => []
  | (k1, v1) :: rest =>
      if k1 = k then rest else (k1, v1) :: fdErase rest k

/-- The allow-list of `_get_torrents_structure`'s sanitizer:
`c.isalnum() or c in (' ', '-', '_', '.')`. -/
def sanitizeChar (c : Char) : Bool :=
  c.isAlphanum || c = ' ' || c = '-' || c = '_' || c = '.'

/-- `"".join(c for c in torrent_name if c.isalnum() or c in (' ','-','_','.'))` -/
def sanitize (s : String) : String :=
  ⟨s.data.filter sanitizeChar⟩

/-- `if file_path.startswith("/"): file_path = file_path[1:]` -/
def stripLeadingSlash (s : String) : String :=
  match s.data with
  | '/' :: rest => ⟨rest⟩
  | _ => s

/-- One element of the `/torrents` listing, with the fields the code reads:
`torrent["id"]`, `torrent.get("status")`, `torrent.get("filename", ...)`. -/
structure Torrent where
  id : String
  status : Option String
  filename : Option String
deriving Repr, DecidableEq

/-- One element of `info["files"]` from `/torrents/info/{id}`, with the
fields the code reads.  `path` and `bytes` carry the `.get` defaults already
applied (`""` and `0`); `links` models `file_info.get("links", [None])` so
that an absent or empty link list yields no first link. -/
structure FileInfo where
  id : Nat
  path : String
  bytes : Nat
  links : List String
deriving Repr, DecidableEq

/-- A file entry of the built structure:
`{"id": ..., "size": ..., "link": ..., "type": "file"}`. -/
structure FileNode where
  id : Nat
  size : Nat
  link : Option String
deriving Repr, DecidableEq

/-- A torrent-directory entry of the built structure:
`{"id": ..., "type": "dir", "files": {...}}`. -/
structure TorrentDir where
  id : String
  files : List (String × FileNode)
deriving Repr, DecidableEq

/-- The value cached under `"torrents_structure"`: sanitized torrent name →
directory entry, insertion-ordered. -/
abbrev Structure : Type := List (String × TorrentDir)

/-- Result of `_resolve_path`: the `{"type": "root"}` marker, a directory
entry, or a file entry. -/
inductive Node where
  | root
  | dir (d : TorrentDir)
  | file (f : FileNode)
deriving Repr, DecidableEq

/-- The files dict built for one torrent (the body of the `try` block in
`_get_torrents_structure`); `info = none` models `get_torrent_info` raising,
in which case the `except` branch leaves the files dict empty. -/
def buildFiles (info : Option (List FileInfo)) : List (String × FileNode) :=
  match info with
  | none => []
  | some fis =>
      fis.foldl
        (fun fs fi =>
          dictInsert fs (stripLeadingSlash fi.path)
            { id := fi.id, size := fi.bytes, link := fi.links.head? })
        []

/-- The sanitized directory name chosen for a torrent:
`torrent.get("filename", f"torrent_{torrent_id}")` then the allow-list
filter. -/
def torrentDirName (t : Torrent) : String :=
  sanitize (t.filename.getD ("torrent_" ++ t.id))

/-- The structure-building loop of `_get_torrents_structure`: skip torrents
whose status is not `"downloaded"`, then assign
`structure[torrent_name] = {...}` (overwriting any earlier entry with the
same sanitized name) with the files fetched for that torrent. -/
def buildStructure (torrents : List Torrent)
    (getInfo : String → Option (List FileInfo)) : Structure :=
  torrents.foldl
    (fun s t =>
      if t.status = some ("downloaded") then
        dictInsert s (torrentDirName t) { id := t.id, files := buildFiles (getInfo t.id) }
      else s)
    []

/-- The remote side seen by the filesystem: the `/torrents` listing
(`none` = network error raised by `requests`), and the per-torrent info
fetch (`none` = exception, caught inside `_get_torrents_structure`).
`get_torrent_info` results pass through the API client's own 60 s cache;
since `torrentInfo` is a fixed function of the torrent id, that extra cache
layer is behaviourally invisible and is not modelled separately. -/
structure Remote where
  torrents : Option (List Torrent)
  torrentInfo : String → Option (List FileInfo)

/-- One entry of `self.open_files`:
`{"path": ..., "info": resolved, "session": None, "download_url": None}`
(`session` is written once and never read, so it is omitted). -/
structure OpenFile where
  path : String
  info : FileNode
  downloadUrl : Option String
deriving Repr, DecidableEq

/-- The mutable attributes of a `RealDebridFS` instance and of its embedded
`RealDebridAPI` client: the fd counter, the open-file table, the
`"torrents_structure"` entry of `_attr_cache` with its timestamp
(TTL 30 s), and the `"torrents"` entry of the API `_cache` with its
timestamp (TTL 60 s). -/
structure FSState where
  fdCounter : Nat
  openFiles : List (Nat × OpenFile)
  attrCache : Option Structure
  attrCacheTime : Nat
  apiCache : Option (List Torrent)
  apiCacheTime : Nat
deriving DecidableEq

/-- `RealDebridAPI.get_torrents` through `_get_cached` (60 s TTL): serve the
cached listing while fresh, otherwise fetch; a fetch failure propagates as
an exception and caches nothing. -/
def apiGetTorrents (st : FSState) (now : Nat) (remote : Remote) :
    Except FSError (List Torrent) × FSState :=
  match st.apiCache with
  | some ts =>
      if now - st.apiCacheTime < 60 then (Except.ok ts, st)
      else
        match remote.torrents with
        | none => (Except.error FSError.remoteExc, st)
        | some ts2 =>
            (Except.ok ts2, { st with apiCache := some ts2, apiCacheTime := now })
  | none =>
      match remote.torrents with
      | none => (Except.error FSError.remoteExc, st)
      | some ts2 =>
          (Except.ok ts2, { st with apiCache := some ts2, apiCacheTime := now })

/-- The rebuild path of `_get_torrents_structure`: fetch the torrent list
(no `try` around `self.api.get_torrents()`, so its failure propagates),
build the structure, cache it under the current time. -/
def rebuildStructure (st : FSState) (now : Nat) (remote : Remote) :
    Except FSError Structure × FSState :=
  match apiGetTorrents st now remote with
  | (Except.error e, st1) => (Except.error e, st1)
  | (Except.ok ts, st1) =>
      let s := buildStructure ts remote.torrentInfo
      (Except.ok s, { st1 with attrCache := some s, attrCacheTime := now })

/-- `RealDebridFS._get_torrents_structure`: serve the cached structure while
it is younger than the 30 s TTL, otherwise rebuild. -/
def getTorrentsStructure (st : FSState) (now : Nat) (remote : Remote) :
    Except FSError Structure × FSState :=
  match st.attrCache with
  | some s =>
      if now - st.attrCacheTime < 30 then (Except.ok s, st)
      else rebuildStructure st now remote
  | none => rebuildStructure st now remote

/-- Python `s.split("/")` on the underlying character list: split at every
`/`, keeping empty segments (`"".split("/") == [""]`,
`"/J".split("/") == ["", "J"]`). -/
def splitSlashChars : List Char → List String
  | [] => [""]
  | c :: rest =>
      let r := splitSlashChars rest
      if c = '/' then "" :: r
      else
        match r with
        | [] => [String.mk [c]]
        | s :: ss => String.mk (c :: s.data) :: ss

/-- Python `s.split("/")`. -/
def pySplit (s : String) : List String := splitSlashChars s.data

/-- `_get_path_parts`: split on `/` and drop empty segments. -/
def getPathParts (path : String) : List String :=
  (pySplit path).filter (fun p => p ≠ "")

/-- The pure part of `_resolve_path` on an already-fetched structure: one
segment names a torrent directory; two or more segments name a file whose
key is the remaining segments rejoined with `/`; anything else is `None`. -/
def resolveParts (s : Structure) (parts : List String) : Option Node :=
  match parts with
  | [] => none
  | [torrentName] =>
      match dictFind s torrentName with
      | some d => some (Node.dir d)
      | none => none
  | torrentName :: rest =>
      match dictFind s torrentName with
      | some d =>
          match dictFind d.files (String.intercalate ("/") rest) with
          | some f => some (Node.file f)
          | none => none
      | none => none

/-- `RealDebridFS._resolve_path`: `/` resolves to the root marker before any
remote access; otherwise the structure is fetched (possibly rebuilding the
cache) and the parts are resolved against it. -/
def resolvePath (st : FSState) (now : Nat) (remote : Remote) (path : String) :
    Except FSError (Option Node) × FSState :=
  if path = "/" then (Except.ok (some Node.root), st)
  else
    match getTorrentsStructure st now remote with
    | (Except.error e, st1) => (Except.error e, st1)
    | (Except.ok s, st1) => (Except.ok (resolveParts s (getPathParts path)), st1)

/-- POSIX `S_IFDIR` type bits. -/
def S_IFDIR : Nat := 0o40000

/-- POSIX `S_IFREG` type bits. -/
def S_IFREG : Nat := 0o100000

/-- The stat dict returned by `getattr`. -/
structure Attr where
  stMode : Nat
  stNlink : Nat
  stSize : Nat
  stCtime : Nat
  stMtime : Nat
  stAtime : Nat
deriving Repr, DecidableEq

/-- The directory branch of `getattr`: `stat.S_IFDIR | 0o755`, nlink 2,
size 4096, all timestamps the current `time.time()`. -/
def dirAttr (now : Nat) : Attr :=
  { stMode := S_IFDIR ||| 0o755, stNlink := 2, stSize := 4096,
    stCtime := now, stMtime := now, stAtime := now }

/-- The file branch of `getattr`: `stat.S_IFREG | 0o444`, nlink 1, the
file entry's size, all timestamps the current `time.time()`. -/
def fileAttr (now : Nat) (size : Nat) : Attr :=
  { stMode := S_IFREG ||| 0o444, stNlink := 1, stSize := size,
    stCtime := now, stMtime := now, stAtime := now }

/-- The attributes `getattr` derives for a resolved node: file attributes
for a file entry, directory attributes for the root and for job
directories. -/
def nodeAttr (now : Nat) : Node → Attr
  | Node.file f => fileAttr now f.size
  | _ => dirAttr now

/-- `RealDebridFS.getattr`: resolve the path, `ENOENT` when it resolves to
nothing, otherwise the directory or file attributes stamped with the
current time. -/
def getattr (st : FSState) (now : Nat) (remote : Remote) (path : String) :
    Except FSError Attr × FSState :=
  match resolvePath st now remote path with
  | (Except.error e, st1) => (Except.error e, st1)
  | (Except.ok none, st1) => (Except.error FSError.enoent, st1)
  | (Except.ok (some Node.root), st1) => (Except.ok (dirAttr now), st1)
  | (Except.ok (some (Node.dir _)), st1) => (Except.ok (dirAttr now), st1)
  | (Except.ok (some (Node.file f)), st1) => (Except.ok (fileAttr now f.size), st1)

/-- The entry list built by `readdir` before deduplication: `.` and `..`,
then all structure keys at the root, or the first segment of each file key
inside a torrent directory. -/
def readdirEntries (n : Node) (s : Structure) : List String :=
  match n with
  | Node.root => [".", ".."] ++ s.map Prod.fst
  | Node.dir d =>
      [".", ".."] ++ d.files.map (fun kv => ((pySplit kv.1).headD ("")))
  | Node.file _ => [".", ".."]

/-- `RealDebridFS.readdir`: resolve the path (`ENOENT` when absent); at the
root, fetch the structure a second time and list its keys; in a torrent
directory, list the first segment of each file path; finally
`list(set(entries))`.  Python's set ordering is unspecified, so the
deduplicated list is modelled by `List.dedup` and only membership is
meaningful. -/
def readdir (st : FSState) (now : Nat) (remote : Remote) (path : String) :
    Except FSError (List String) × FSState :=
  match resolvePath st now remote path with
  | (Except.error e, st1) => (Except.error e, st1)
  | (Except.ok none, st1) => (Except.error FSError.enoent, st1)
  | (Except.ok (some Node.root), st1) =>
      match getTorrentsStructure st1 now remote with
      | (Except.error e, st2) => (Except.error e, st2)
      | (Except.ok s, st2) => (Except.ok ((readdirEntries Node.root s).dedup), st2)
  | (Except.ok (some (Node.dir d)), st1) =>
      (Except.ok ((readdirEntries (Node.dir d) []).dedup), st1)
  | (Except.ok (some (Node.file f)), st1) =>
      (Except.ok ((readdirEntries (Node.file f) []).dedup), st1)

/-- `RealDebridFS.open`: resolve the path; anything but a file node is
`ENOENT` (the link field is not examined); otherwise increment
`fd_counter`, record the resolved node in `open_files` with no download
URL, and return the new fd. -/
def fsOpen (st : FSState) (now : Nat) (remote : Remote) (path : String) :
    Except FSError Nat × FSState :=
  match resolvePath st now remote path with
  | (Except.error e, st1) => (Except.error e, st1)
  | (Except.ok (some (Node.file f)), st1) =>
      let fd := st1.fdCounter + 1
      (Except.ok fd,
        { st1 with
            fdCounter := fd,
            openFiles := fdInsert st1.openFiles fd
              { path := path, info := f, downloadUrl := none } })
  | (Except.ok _, st1) => (Except.error FSError.enoent, st1)

/-- An HTTP response to the range request issued by `read`. -/
structure HttpResponse where
  status : Nat
  content : List Nat
deriving Repr, DecidableEq

/-- The remote side seen by `read`: `get_download_link` (`none` = exception,
caught and turned into `EIO`), and the ranged `requests.get` as a function
of URL and the two endpoints of the `Range: bytes=a-b` header (`none` =
exception). -/
structure ReadRemote where
  unrestrict : String → Option String
  rangeGet : String → Nat → Nat → Option HttpResponse

/-- The streaming tail of `read`: issue
`Range: bytes=offset-(offset+size-1)`, accept status 200 or 206 and return
`response.content` unmodified, anything else is `EIO`. -/
def readHttp (st : FSState) (rr : ReadRemote) (url : String)
    (size offset : Nat) : Except FSError (List Nat) × FSState :=
  match rr.rangeGet url offset (offset + size - 1) with
  | none => (Except.error FSError.eio, st)
  | some resp =>
      if resp.status = 200 ∨ resp.status = 206 then (Except.ok resp.content, st)
      else (Except.error FSError.eio, st)

/-- `RealDebridFS.read`: `EBADF` for an unknown fd; `EIO` when the captured
node has no link; then memoize the download URL on first use (`EIO` when the
exchange fails) and stream the range. the `path` argument is ignored, as in
the source. -/
def read (st : FSState) (rr : ReadRemote) (path : String)
    (size offset fh : Nat) : Except FSError (List Nat) × FSState :=
  match fdFind st.openFiles fh with
  | none => (Except.error FSError.ebadf, st)
  | some of =>
      match of.info.link with
      | none => (Except.error FSError.eio, st)
      | some link =>
          match of.downloadUrl with
          | some url => readHttp st rr url size offset
          | none =>
              match rr.unrestrict link with
              | none => (Except.error FSError.eio, st)
              | some url =>
                  let st1 :=
                    { st with
                        openFiles := fdInsert st.openFiles fh
                          { of with downloadUrl := some url } }
                  readHttp st1 rr url size offset

/-- `RealDebridFS.release`: drop the fd from the table when present and
return 0. -/
def release (st : FSState) (path : String) (fh : Nat) : Nat × FSState :=
  (0, { st with openFiles := fdErase st.openFiles fh })

/-- `RealDebridFS.chmod`: unconditionally `FuseOSError(EROFS)`.  Like all
nine mutating stubs it takes no `Remote`/`ReadRemote` argument because its
body touches neither the API client nor any attribute. -/
def chmod (st : FSState) (path : String) (mode : Nat) :
    Except FSError Unit × FSState :=
  (Except.error FSError.erofs, st)

/-- `RealDebridFS.chown`: unconditionally `FuseOSError(EROFS)`. -/
def chown (st : FSState) (path : String) (uid gid : Nat) :
    Except FSError Unit × FSState :=
  (Except.error FSError.erofs, st)

/-- `RealDebridFS.create`: unconditionally `FuseOSError(EROFS)`. -/
def create (st : FSState) (path : String) (mode : Nat) :
    Except FSError Unit × FSState :=
  (Except.error FSError.erofs, st)

/-- `RealDebridFS.mkdir`: unconditionally `FuseOSError(EROFS)`. -/
def mkdir (st : FSState) (path : String) (mode : Nat) :
    Except FSError Unit × FSState :=
  (Except.error FSError.erofs, st)

/-- `RealDebridFS.rename`: unconditionally `FuseOSError(EROFS)`. -/
def rename (st : FSState) (old new : String) :
    Except FSError Unit × FSState :=
  (Except.error FSError.erofs, st)

/-- `RealDebridFS.rmdir`: unconditionally `FuseOSError(EROFS)`. -/
def rmdir (st : FSState) (path : String) :
    Except FSError Unit × FSState :=
  (Except.error FSError.erofs, st)

/-- `RealDebridFS.truncate`: unconditionally `FuseOSError(EROFS)`. -/
def truncate (st : FSState) (path : String) (length : Nat) :
    Except FSError Unit × FSState :=
  (Except.error FSError.erofs, st)

/-- `RealDebridFS.unlink`: unconditionally `FuseOSError(EROFS)`. -/
def unlink (st : FSState) (path : String) :
    Except FSError Unit × FSState :=
  (Except.error FSError.erofs, st)

/-- `RealDebridFS.write`: unconditionally `FuseOSError(EROFS)`. -/
def write (st : FSState) (path : String) (data : List Nat) (offset fh : Nat) :
    Except FSError Unit × FSState :=
  (Except.error FSError.erofs, st)

/-- One dispatched filesystem call, for reasoning about handle-id traces. -/
inductive FSCall where
  | copen (now : Nat) (path : String)
  | cread (path : String) (size offset fh : Nat)
  | crelease (path : String) (fh : Nat)

/-- Dispatch one filesystem call against a state; the second component
lists the fd returned when the call was a successful open. -/
def callStep (remote : Remote) (rr : ReadRemote) (st : FSState) :
    FSCall → FSState × List Nat
  | FSCall.copen now path =>
      match fsOpen st now remote path with
      | (Except.ok fd, st1) => (st1, [fd])
      | (Except.error _, st1) => (st1, [])
  | FSCall.cread path size offset fh => ((read st rr path size offset fh).2, [])
  | FSCall.crelease path fh => ((release st path fh).2, [])

/-- Run a sequence of open/read/release calls from a state, collecting the
fds returned by the successful opens in order. -/
def runCalls (remote : Remote) (rr : ReadRemote) :
    FSState → List FSCall → FSState × List Nat
  | st, [] => (st, [])
  | st, c :: cs =>
      let step := callStep remote rr st c
      let rest := runCalls remote rr step.1 cs
      (rest.1, step.2 ++ rest.2)

/-! Concrete fixtures used by witnesses and counterexamples. -/

/-- A 10-byte file entry whose download link is present. -/
def fileLinked : FileNode := { id := 1, size := 10, link := some ("L") }

/-- A 10-byte file entry whose download link is absent
(`get("links", [None])[0]` was `None`). -/
def fileNoLink : FileNode := { id := 2, size := 10, link := none }

/-- A torrent directory holding the linked file under key `f`. -/
def dirLinked : TorrentDir := { id := "A", files := [("f", fileLinked)] }

/-- A torrent directory holding the link-less file under key `f`. -/
def dirNoLink : TorrentDir := { id := "A", files := [("f", fileNoLink)] }

/-- A torrent directory whose only file lies in a subdirectory. -/
def dirNested : TorrentDir := { id := "A", files := [("sub/movie.mkv", fileLinked)] }

/-- A remote on which every request fails. -/
def remoteFail : Remote := { torrents := none, torrentInfo := fun _ => none }

/-- A freshly cached state whose snapshot maps `J` to `dirLinked`. -/
def stLinked : FSState :=
  { fdCounter := 0, openFiles := [], attrCache := some [("J", dirLinked)],
    attrCacheTime := 0, apiCache := some [], apiCacheTime := 0 }

/-- A freshly cached state whose snapshot maps `J` to `dirNoLink`. -/
def stNoLink : FSState :=
  { fdCounter := 0, openFiles := [], attrCache := some [("J", dirNoLink)],
    attrCacheTime := 0, apiCache := some [], apiCacheTime := 0 }

/-- A freshly cached state whose snapshot maps `J` to `dirNested`. -/
def stNested : FSState :=
  { fdCounter := 0, openFiles := [], attrCache := some [("J", dirNested)],
    attrCacheTime := 0, apiCache := some [], apiCacheTime := 0 }

/-- A state holding one open handle (fd 1) on `fileLinked` with the download
URL already memoized, and whose current snapshot is empty (the job has
vanished from the catalog). -/
def stHandle : FSState :=
  { fdCounter := 1,
    openFiles := [(1, { path := "/J/f", info := fileLinked, downloadUrl := some ("U") })],
    attrCache := some [], attrCacheTime := 0, apiCache := some [], apiCacheTime := 0 }

/-- A read-side remote whose server ignores the `Range` header and replies
HTTP 200 with the full 10-byte body. -/
def rrFull200 : ReadRemote :=
  { unrestrict := fun _ => some ("U"),
    rangeGet := fun _ _ _ => some { status := 200, content := List.range 10 } }

/-- A read-side remote whose server answers an out-of-range request with
HTTP 416 and an empty body. -/
def rr416 : ReadRemote :=
  { unrestrict := fun _ => some ("U"),
    rangeGet := fun _ _ _ => some { status := 416, content := [] } }

/-- A read-side remote whose server honours the range and replies HTTP 206
with a 5-byte body. -/
def rrPartial206 : ReadRemote :=
  { unrestrict := fun _ => some ("U"),
    rangeGet := fun _ _ _ => some { status := 206, content := [0, 1, 2, 3, 4] } }

/-- Two ready torrents whose display names sanitize to the same string. -/
def torrentA : Torrent := { id := "A", status := some ("downloaded"), filename := some ("x?y") }

/-- Second colliding torrent, distinct remote id. -/
def torrentB : Torrent := { id := "B", status := some ("downloaded"), filename := some ("x!y") }

/-! Helper lemmas. -/

/-- While the cached structure is younger than the 30 s TTL it is served
unchanged, with no remote access. -/
theorem getTorrentsStructure_fresh (st : FSState) (now : Nat) (remote : Remote)
    (s : Structure) (hc : st.attrCache = some s)
    (hf : now - st.attrCacheTime < 30) :
    getTorrentsStructure st now remote = (Except.ok s, st) := by
  unfold getTorrentsStructure
  rw [hc]
  simp [hf]

/-- Path resolution against a fresh cache is a pure lookup in the cached
structure and leaves the state untouched. -/
theorem resolvePath_fresh (st : FSState) (now : Nat) (remote : Remote)
    (s : Structure) (path : String) (hc : st.attrCache = some s)
    (hf : now - st.attrCacheTime < 30) (hp : path ≠ "/") :
    resolvePath st now remote path =
      (Except.ok (resolveParts s (getPathParts path)), st) := by
  unfold resolvePath
  rw [getTorrentsStructure_fresh st now remote s hc hf]
  simp [hp]

/-- Looking up the key just inserted finds the inserted value. -/
theorem fdFind_fdInsert_self {β : Type} (d : List (Nat × β)) (k : Nat) (v : β) :
    fdFind (fdInsert d k v) k = some v := by
  induction d with
  | nil => simp [fdFind, fdInsert]
  | cons hd tl ih =>
      obtain ⟨k1, v1⟩ := hd
      by_cases h : k1 = k
      · simp [fdFind, fdInsert, h]
      · simp [fdFind, fdInsert, h, ih]

/-- A successful dict lookup exhibits a member of the association list. -/
theorem dictFind_mem {β : Type} (d : List (String × β)) (k : String) (v : β)
    (h : dictFind d k = some v) : (k, v) ∈ d := by
  induction d with
  | nil => simp [dictFind] at h
  | cons hd tl ih =>
      obtain ⟨k1, v1⟩ := hd
      by_cases hk : k1 = k
      · subst hk
        simp [dictFind] at h
        simp [h]
      · simp [dictFind, hk] at h
        exact List.mem_cons_of_mem _ (ih h)

/-- `String.intercalate` of a single segment is that segment. -/
theorem intercalate_singleton (sep a : String) :
    String.intercalate sep [a] = a := rfl

/-! Claim theorems. -/

/-- C3: every mutating operation (`chmod`, `chown`, `create`, `mkdir`,
`rename`, `rmdir`, `truncate`, `unlink`, `write`) fails with `EROFS` and
returns the state — snapshot cache and open-file table — unchanged; none of
them takes the remote interface as an input, so no remote call can occur. -/
theorem C3_mutating_ops_rejected (st : FSState) :
    (∀ path mode, chmod st path mode = (Except.error FSError.erofs, st)) ∧
    (∀ path uid gid, chown st path uid gid = (Except.error FSError.erofs, st)) ∧
    (∀ path mode, create st path mode = (Except.error FSError.erofs, st)) ∧
    (∀ path mode, mkdir st path mode = (Except.error FSError.erofs, st)) ∧
    (∀ old new, rename st old new = (Except.error FSError.erofs, st)) ∧
    (∀ path, rmdir st path = (Except.error FSError.erofs, st)) ∧
    (∀ path length, truncate st path length = (Except.error FSError.erofs, st)) ∧
    (∀ path, unlink st path = (Except.error FSError.erofs, st)) ∧
    (∀ path data offset fh,
      write st path data offset fh = (Except.error FSError.erofs, st)) := by
  exact ⟨fun _ _ => rfl, fun _ _ _ => rfl, fun _ _ => rfl, fun _ _ => rfl,
    fun _ _ => rfl, fun _ => rfl, fun _ _ => rfl, fun _ => rfl,
    fun _ _ _ _ => rfl⟩

/-- C8 counterexample: `getattr` on the root directory reports mode
`S_IFDIR | 0o755`, which differs from the claimed `S_IFDIR | 0o555`
(the mode carries an owner-write bit). -/
theorem C8_counterexample :
    (getattr stLinked 0 remoteFail "/").1 = Except.ok (dirAttr 0) ∧
    (dirAttr 0).stMode = S_IFDIR ||| 0o755 ∧
    S_IFDIR ||| 0o755 ≠ S_IFDIR ||| 0o555 := by
  exact ⟨rfl, rfl, by decide⟩

/-- C8 (amended): for every resolved node, `getattr` reports mode
`S_IFREG | 0o444` for file nodes and `S_IFDIR | 0o755` — not `0o555` — for
the root and job directories. -/
theorem C8_attr_modes (st : FSState) (now : Nat) (remote : Remote)
    (path : String) (n : Node) (st1 : FSState)
    (h : resolvePath st now remote path = (Except.ok (some n), st1)) :
    (getattr st now remote path).1 = Except.ok (nodeAttr now n) ∧
    (∀ sz, (fileAttr now sz).stMode = S_IFREG ||| 0o444) ∧
    (dirAttr now).stMode = S_IFDIR ||| 0o755 ∧
    (dirAttr now).stMode ≠ S_IFDIR ||| 0o555 := by
  refine ⟨?_, fun _ => rfl, rfl,
    (by decide : (S_IFDIR ||| 0o755 : Nat) ≠ S_IFDIR ||| 0o555)⟩
  unfold getattr
  rw [h]
  cases n <;> rfl

/-- C8 witness: at the concrete snapshot `stLinked`, the job directory `J`
gets directory attributes with mode `S_IFDIR | 0o755`. -/
theorem C8_attr_modes_witness :
    (getattr stLinked 0 remoteFail "/J").1 = Except.ok (dirAttr 0) ∧
    (dirAttr 0).stMode = S_IFDIR ||| 0o755 := by
  have h := C8_attr_modes stLinked 0 remoteFail ("/J") (Node.dir dirLinked) stLinked rfl
  exact ⟨h.1, h.2.2.1⟩

/-- C9 counterexample: two immediately successive `getattr` calls on the
same path, with the same fresh snapshot and no state change in between,
disagree on every timestamp as soon as the clock has advanced. -/
theorem C9_counterexample :
    (getattr stLinked 0 remoteFail "/J").1 = Except.ok (dirAttr 0) ∧
    (getattr stLinked 0 remoteFail "/J").2 = stLinked ∧
    (getattr stLinked 1 remoteFail "/J").1 = Except.ok (dirAttr 1) ∧
    (dirAttr 0).stMtime ≠ (dirAttr 1).stMtime ∧
    dirAttr 0 ≠ dirAttr 1 := by
  exact ⟨rfl, rfl, rfl, by decide, by decide⟩

/-- C1: the Range Reader does not truncate.  On a concrete open handle to a
10-byte file, a `read` of length 5 returns the server's full 10-byte body
when the server ignores the `Range` header and answers HTTP 200, and a read
at `offset = size_bytes` surfaces `EIO` (not an empty byte string) when the
server answers the out-of-range request with HTTP 416. -/
theorem C1_read_untruncated :
    fileLinked.size = 10 ∧
    (read stHandle rrFull200 "/J/f" 5 0 1).1 = Except.ok (List.range 10) ∧
    5 < (List.range 10).length ∧
    (read stHandle rr416 "/J/f" 5 10 1).1 = Except.error FSError.eio := by
  exact ⟨rfl, rfl, by decide, rfl⟩

/-- C2 counterexample: a valid previous snapshot (containing job `J`)
exists, both cache TTLs have lapsed at time 100, and the remote listing
fails — `getattr` of `/J` and `readdir` of the root then propagate the
remote failure instead of serving the stale snapshot. -/
theorem C2_counterexample :
    stLinked.attrCache = some [("J", dirLinked)] ∧
    (getattr stLinked 100 remoteFail "/J").1 = Except.error FSError.remoteExc ∧
    (readdir stLinked 100 remoteFail "/").1 = Except.error FSError.remoteExc := by
  exact ⟨rfl, rfl, rfl⟩

/-- C2 (amended): while the cached structure is within its 30 s TTL,
`readdir`/`getattr` serve it without touching the remote; but once a
rebuild actually reaches the network (filesystem TTL and the API client's
60 s torrents cache both lapsed) and the fetch fails, the failure
propagates out of `readdir` and `getattr` — the stale snapshot is not
served as a fallback. -/
theorem C2_stale_snapshot (st : FSState) (now : Nat) (remote : Remote)
    (s : Structure) (hc : st.attrCache = some s) :
    (now - st.attrCacheTime < 30 →
      getTorrentsStructure st now remote = (Except.ok s, st)) ∧
    (¬ now - st.attrCacheTime < 30 →
      (st.apiCache = none ∨ ¬ now - st.apiCacheTime < 60) →
      remote.torrents = none →
      getTorrentsStructure st now remote = (Except.error FSError.remoteExc, st) ∧
      (readdir st now remote ("/")).1 = Except.error FSError.remoteExc ∧
      (∀ path, path ≠ "/" →
        (getattr st now remote path).1 = Except.error FSError.remoteExc)) := by
  constructor
  · intro hf
    exact getTorrentsStructure_fresh st now remote s hc hf
  · intro hf hapi htor
    have hapi2 : apiGetTorrents st now remote =
        (Except.error FSError.remoteExc, st) := by
      unfold apiGetTorrents
      rcases hac : st.apiCache with _ | ts
      · simp [htor]
      · rcases hapi with h | h
        · rw [hac] at h
          cases h
        · simp [htor, h]
    have hfail : getTorrentsStructure st now remote =
        (Except.error FSError.remoteExc, st) := by
      unfold getTorrentsStructure rebuildStructure
      rw [hc]
      simp [hf, hapi2]
    have hroot : resolvePath st now remote ("/") =
        (Except.ok (some Node.root), st) := rfl
    refine ⟨hfail, ?_, ?_⟩
    · unfold readdir
      simp [hroot, hfail]
    · intro path hp
      unfold getattr resolvePath
      simp [hp, hfail]

/-- C2 witness: the amended behaviour at the concrete stale state — the
rebuild failure at time 100 propagates out of `getattr` and `readdir`. -/
theorem C2_stale_snapshot_witness :
    getTorrentsStructure stLinked 100 remoteFail =
      (Except.error FSError.remoteExc, stLinked) ∧
    (readdir stLinked 100 remoteFail "/").1 = Except.error FSError.remoteExc ∧
    (getattr stLinked 100 remoteFail "/J").1 = Except.error FSError.remoteExc := by
  have h := (C2_stale_snapshot stLinked 100 remoteFail [("J", dirLinked)] rfl).2
    (by decide) (Or.inr (by decide)) rfl
  exact ⟨h.1, h.2.1, h.2.2 ("/J") (by decide)⟩

/-- C4 counterexample: a path resolving to a file whose link is absent —
`open` nevertheless succeeds and returns fd 1; the claimed NotReady
failure does not occur at open time. -/
theorem C4_counterexample :
    (resolvePath stNoLink 0 remoteFail "/J/f").1 =
      Except.ok (some (Node.file fileNoLink)) ∧
    fileNoLink.link = none ∧
    (fsOpen stNoLink 0 remoteFail "/J/f").1 = Except.ok 1 := by
  exact ⟨rfl, rfl, rfl⟩

/-- C4 (amended): `open` on a file node with an absent link succeeds,
allocating a fresh fd and storing the node; the missing link is only
detected at `read` time, which fails with `EIO`. -/
theorem C4_open_defers_missing_link (st : FSState) (now : Nat)
    (remote : Remote) (path : String) (f : FileNode) (st1 : FSState)
    (hres : resolvePath st now remote path = (Except.ok (some (Node.file f)), st1))
    (hnolink : f.link = none) :
    fsOpen st now remote path =
      (Except.ok (st1.fdCounter + 1),
        { st1 with
            fdCounter := st1.fdCounter + 1,
            openFiles := fdInsert st1.openFiles (st1.fdCounter + 1)
              { path := path, info := f, downloadUrl := none } }) ∧
    (∀ rr size offset,
      (read
        { st1 with
            fdCounter := st1.fdCounter + 1,
            openFiles := fdInsert st1.openFiles (st1.fdCounter + 1)
              { path := path, info := f, downloadUrl := none } }
        rr path size offset (st1.fdCounter + 1)).1 =
        Except.error FSError.eio) := by
  constructor
  · unfold fsOpen
    rw [hres]
  · intro rr size offset
    unfold read
    rw [fdFind_fdInsert_self]
    simp [hnolink]

/-- C4 witness: at the concrete snapshot with a link-less file, `open`
returns fd 1 and the subsequent `read` fails with `EIO`. -/
theorem C4_open_defers_missing_link_witness :
    (fsOpen stNoLink 0 remoteFail "/J/f").1 = Except.ok 1 ∧
    (read (fsOpen stNoLink 0 remoteFail "/J/f").2 rrPartial206 "/J/f" 5 0 1).1 =
      Except.error FSError.eio := by
  have h := C4_open_defers_missing_link stNoLink 0 remoteFail ("/J/f")
    fileNoLink stNoLink rfl rfl
  refine ⟨?_, ?_⟩
  · rw [h.1]
    rfl
  · have h2 := h.2 rrPartial206 5 0
    rw [h.1]
    exact h2

/-- A read's returned value (the first component) depends only on the
open-file table, not on any snapshot-cache field of the state. -/
theorem read_fst_openFiles (st1 st2 : FSState) (rr : ReadRemote)
    (path : String) (size offset fh : Nat)
    (h : st2.openFiles = st1.openFiles) :
    (read st2 rr path size offset fh).1 = (read st1 rr path size offset fh).1 := by
  unfold read readHttp
  rw [h]
  rcases fdFind st1.openFiles fh with _ | of
  · rfl
  · dsimp only
    rcases of.info.link with _ | l
    · rfl
    · dsimp only
      rcases of.downloadUrl with _ | url
      · dsimp only
        rcases rr.unrestrict l with _ | url2
        · rfl
        · dsimp only
          rcases rr.rangeGet url2 offset (offset + size - 1) with _ | resp
          · rfl
          · dsimp only
            split <;> rfl
      · dsimp only
        rcases rr.rangeGet url offset (offset + size - 1) with _ | resp
        · rfl
        · dsimp only
          split <;> rfl

/-- C5: a `read` through an already-open handle uses only the node captured
at open time — it succeeds against the handle's memoized URL even though
the path no longer resolves in the current snapshot — while a fresh
`getattr` of the same path now fails with `ENOENT`; moreover the read
result is independent of all snapshot-cache fields of the state. -/
theorem C5_stale_handle_read (st : FSState) (rr : ReadRemote)
    (now size offset fh : Nat) (of : OpenFile) (l url : String)
    (resp : HttpResponse) (remote : Remote) (s : Structure)
    (hof : fdFind st.openFiles fh = some of)
    (hlink : of.info.link = some l)
    (hurl : of.downloadUrl = some url)
    (hresp : rr.rangeGet url offset (offset + size - 1) = some resp)
    (hstat : resp.status = 206)
    (hc : st.attrCache = some s)
    (hf : now - st.attrCacheTime < 30)
    (hgone : resolveParts s (getPathParts of.path) = none)
    (hp : of.path ≠ "/") :
    (read st rr of.path size offset fh).1 = Except.ok resp.content ∧
    (read st rr of.path size offset fh).2 = st ∧
    (∀ c ct ac act,
      (read { st with attrCache := c, attrCacheTime := ct,
                      apiCache := ac, apiCacheTime := act }
        rr of.path size offset fh).1 =
      (read st rr of.path size offset fh).1) ∧
    (getattr st now remote of.path).1 = Except.error FSError.enoent := by
  have hread : read st rr of.path size offset fh = (Except.ok resp.content, st) := by
    unfold read readHttp
    simp only [hof, hlink, hurl, hresp]
    simp [hstat]
  refine ⟨by rw [hread], by rw [hread], ?_, ?_⟩
  · intro c ct ac act
    exact read_fst_openFiles st
      { st with attrCache := c, attrCacheTime := ct,
                apiCache := ac, apiCacheTime := act }
      rr of.path size offset fh rfl
  · unfold getattr
    rw [resolvePath_fresh st now remote s of.path hc hf hp]
    simp [hgone]

/-- C5 witness: the concrete stale-handle scenario — fd 1 was opened on a
file whose job has since vanished from the snapshot; reading 5 bytes at
offset 0 through the handle succeeds while `getattr` of the same path
returns `ENOENT`. -/
theorem C5_stale_handle_read_witness :
    (read stHandle rrPartial206 "/J/f" 5 0 1).1 = Except.ok [0, 1, 2, 3, 4] ∧
    (getattr stHandle 0 remoteFail "/J/f").1 = Except.error FSError.enoent := by
  have h := C5_stale_handle_read stHandle rrPartial206 0 5 0 1
    { path := "/J/f", info := fileLinked, downloadUrl := some ("U") }
    ("L") ("U") { status := 206, content := [0, 1, 2, 3, 4] } remoteFail []
    rfl rfl rfl rfl rfl rfl (by decide) rfl (by decide)
  exact ⟨h.1, h.2.2.2⟩

/-- C9 (amended): without an intervening refresh, resolution is idempotent —
two successive `resolvePath` calls return the same node and leave the state
untouched — and two `getattr` calls agree on mode, link count and size; but
every timestamp equals the wall-clock time of its own call, so the attribute
dicts coincide only when the clock has not advanced between the calls. -/
theorem C9_resolve_idempotent (st : FSState) (now1 now2 : Nat)
    (remote : Remote) (path : String) (s : Structure)
    (hc : st.attrCache = some s)
    (h1 : now1 - st.attrCacheTime < 30) (h2 : now2 - st.attrCacheTime < 30) :
    resolvePath st now1 remote path = resolvePath st now2 remote path ∧
    (resolvePath st now1 remote path).2 = st ∧
    (∀ n, (resolvePath st now1 remote path).1 = Except.ok (some n) →
      getattr st now1 remote path = (Except.ok (nodeAttr now1 n), st) ∧
      getattr st now2 remote path = (Except.ok (nodeAttr now2 n), st) ∧
      (nodeAttr now1 n).stMode = (nodeAttr now2 n).stMode ∧
      (nodeAttr now1 n).stNlink = (nodeAttr now2 n).stNlink ∧
      (nodeAttr now1 n).stSize = (nodeAttr now2 n).stSize ∧
      (nodeAttr now1 n).stMtime = now1 ∧
      (nodeAttr now2 n).stMtime = now2) := by
  by_cases hp : path = "/"
  · subst hp
    refine ⟨rfl, rfl, ?_⟩
    intro n hn
    have hn2 : (Except.ok (some Node.root) : Except FSError (Option Node)) =
        Except.ok (some n) := hn
    have hroot : Node.root = n := by
      injection hn2 with h3
      injection h3
    subst hroot
    exact ⟨rfl, rfl, rfl, rfl, rfl, rfl, rfl⟩
  · have r1 := resolvePath_fresh st now1 remote s path hc h1 hp
    have r2 := resolvePath_fresh st now2 remote s path hc h2 hp
    refine ⟨by rw [r1, r2], by rw [r1], ?_⟩
    intro n hn
    rw [r1] at hn
    have hr : resolveParts s (getPathParts path) = some n := by
      injection hn
    cases n with
    | root =>
        exact ⟨by unfold getattr; rw [r1, hr]; rfl,
          by unfold getattr; rw [r2, hr]; rfl, rfl, rfl, rfl, rfl, rfl⟩
    | dir d =>
        exact ⟨by unfold getattr; rw [r1, hr]; rfl,
          by unfold getattr; rw [r2, hr]; rfl, rfl, rfl, rfl, rfl, rfl⟩
    | file f =>
        exact ⟨by unfold getattr; rw [r1, hr]; rfl,
          by unfold getattr; rw [r2, hr]; rfl, rfl, rfl, rfl, rfl, rfl⟩

/-- C9 witness: at the fresh snapshot `stLinked`, resolving `/J` at times 0
and 1 yields the same directory node with equal sizes, and the two
`getattr` results carry their own call times as timestamps. -/
theorem C9_resolve_idempotent_witness :
    getattr stLinked 0 remoteFail "/J" =
      (Except.ok (nodeAttr 0 (Node.dir dirLinked)), stLinked) ∧
    getattr stLinked 1 remoteFail "/J" =
      (Except.ok (nodeAttr 1 (Node.dir dirLinked)), stLinked) ∧
    (nodeAttr 0 (Node.dir dirLinked)).stSize =
      (nodeAttr 1 (Node.dir dirLinked)).stSize ∧
    (nodeAttr 0 (Node.dir dirLinked)).stMtime = 0 ∧
    (nodeAttr 1 (Node.dir dirLinked)).stMtime = 1 := by
  have h := (C9_resolve_idempotent stLinked 0 1 remoteFail ("/J")
    [("J", dirLinked)] rfl (by decide) (by decide)).2.2 (Node.dir dirLinked) rfl
  exact ⟨h.1, h.2.1, h.2.2.2.2.1, h.2.2.2.2.2.1, h.2.2.2.2.2.2⟩

/-- `apiGetTorrents` can only touch the API-cache fields of the state. -/
theorem apiGetTorrents_frame (st : FSState) (now : Nat) (remote : Remote) :
    ((apiGetTorrents st now remote).2).fdCounter = st.fdCounter ∧
    ((apiGetTorrents st now remote).2).openFiles = st.openFiles := by
  unfold apiGetTorrents
  rcases st.apiCache with _ | ts
  · dsimp only
    rcases remote.torrents with _ | ts2
    · exact ⟨rfl, rfl⟩
    · exact ⟨rfl, rfl⟩
  · dsimp only
    split
    · exact ⟨rfl, rfl⟩
    · rcases remote.torrents with _ | ts2
      · exact ⟨rfl, rfl⟩
      · exact ⟨rfl, rfl⟩

/-- `rebuildStructure` can only touch cache fields of the state. -/
theorem rebuildStructure_frame (st : FSState) (now : Nat) (remote : Remote) :
    ((rebuildStructure st now remote).2).fdCounter = st.fdCounter ∧
    ((rebuildStructure st now remote).2).openFiles = st.openFiles := by
  unfold rebuildStructure
  rcases hapi : apiGetTorrents st now remote with ⟨res, st1⟩
  have hf := apiGetTorrents_frame st now remote
  rw [hapi] at hf
  dsimp only at hf
  rcases res with e | ts
  · exact hf
  · exact hf

/-- `getTorrentsStructure` can only touch cache fields of the state. -/
theorem getTorrentsStructure_frame (st : FSState) (now : Nat) (remote : Remote) :
    ((getTorrentsStructure st now remote).2).fdCounter = st.fdCounter ∧
    ((getTorrentsStructure st now remote).2).openFiles = st.openFiles := by
  unfold getTorrentsStructure
  rcases st.attrCache with _ | s
  · exact rebuildStructure_frame st now remote
  · dsimp only
    split
    · exact ⟨rfl, rfl⟩
    · exact rebuildStructure_frame st now remote

/-- `resolvePath` can only touch cache fields of the state. -/
theorem resolvePath_frame (st : FSState) (now : Nat) (remote : Remote)
    (path : String) :
    ((resolvePath st now remote path).2).fdCounter = st.fdCounter ∧
    ((resolvePath st now remote path).2).openFiles = st.openFiles := by
  unfold resolvePath
  split
  · exact ⟨rfl, rfl⟩
  · rcases hgs : getTorrentsStructure st now remote with ⟨res, st1⟩
    have hf := getTorrentsStructure_frame st now remote
    rw [hgs] at hf
    dsimp only at hf
    rcases res with e | s
    · exact hf
    · exact hf

/-- `open` either returns exactly `fd_counter + 1` and bumps the counter to
that value, or fails leaving the counter unchanged. -/
theorem fsOpen_cases (st : FSState) (now : Nat) (remote : Remote)
    (path : String) :
    ((fsOpen st now remote path).1 = Except.ok (st.fdCounter + 1) ∧
      ((fsOpen st now remote path).2).fdCounter = st.fdCounter + 1) ∨
    ((∃ e, (fsOpen st now remote path).1 = Except.error e) ∧
      ((fsOpen st now remote path).2).fdCounter = st.fdCounter) := by
  have hf := resolvePath_frame st now remote path
  unfold fsOpen
  rcases hres : resolvePath st now remote path with ⟨res, st1⟩
  rw [hres] at hf
  dsimp only at hf
  rcases res with e | onode
  · exact Or.inr ⟨⟨e, rfl⟩, hf.1⟩
  · rcases onode with _ | n
    · exact Or.inr ⟨⟨FSError.enoent, rfl⟩, hf.1⟩
    · cases n with
      | root => exact Or.inr ⟨⟨FSError.enoent, rfl⟩, hf.1⟩
      | dir d => exact Or.inr ⟨⟨FSError.enoent, rfl⟩, hf.1⟩
      | file f =>
          refine Or.inl ⟨?_, ?_⟩ <;> (dsimp only; rw [hf.1])

/-- `read` never changes `fd_counter`. -/
theorem read_fdCounter (st : FSState) (rr : ReadRemote) (path : String)
    (size offset fh : Nat) :
    ((read st rr path size offset fh).2).fdCounter = st.fdCounter := by
  unfold read readHttp
  rcases fdFind st.openFiles fh with _ | of
  · rfl
  · dsimp only
    rcases of.info.link with _ | l
    · rfl
    · dsimp only
      rcases of.downloadUrl with _ | url
      · dsimp only
        rcases rr.unrestrict l with _ | url2
        · rfl
        · dsimp only
          rcases rr.rangeGet url2 offset (offset + size - 1) with _ | resp
          · rfl
          · dsimp only
            split <;> rfl
      · dsimp only
        rcases rr.rangeGet url offset (offset + size - 1) with _ | resp
        · rfl
        · dsimp only
          split <;> rfl

/-- One dispatched call never lowers `fd_counter`, and any fd it returns is
the new counter value, strictly above the old one. -/
theorem callStep_spec (remote : Remote) (rr : ReadRemote) (st : FSState)
    (c : FSCall) :
    st.fdCounter ≤ ((callStep remote rr st c).1).fdCounter ∧
    (∀ fd ∈ (callStep remote rr st c).2,
      fd = ((callStep remote rr st c).1).fdCounter ∧ st.fdCounter < fd) := by
  cases c with
  | copen now path =>
      unfold callStep
      dsimp only
      rcases hopen : fsOpen st now remote path with ⟨res, st1⟩
      have hc := fsOpen_cases st now remote path
      rw [hopen] at hc
      dsimp only at hc
      rcases res with e | fd
      · dsimp only
        rcases hc with ⟨h1, _⟩ | ⟨_, h2⟩
        · cases h1
        · exact ⟨by rw [h2], fun fd hfd => by cases hfd⟩
      · dsimp only
        rcases hc with ⟨h1, h2⟩ | ⟨⟨e, h1⟩, _⟩
        · have h3 : fd = st.fdCounter + 1 := Except.ok.inj h1
          refine ⟨by omega, ?_⟩
          intro fd2 hfd2
          have h5 : fd2 = fd := by simpa using hfd2
          subst h5
          exact ⟨by omega, by omega⟩
        · cases h1
  | cread path size offset fh =>
      unfold callStep
      dsimp only
      exact ⟨by rw [read_fdCounter], fun fd hfd => by cases hfd⟩
  | crelease path fh =>
      unfold callStep
      dsimp only
      exact ⟨Nat.le_refl _, fun fd hfd => by cases hfd⟩

/-- One dispatched call returns at most one fd. -/
theorem callStep_len (remote : Remote) (rr : ReadRemote) (st : FSState)
    (c : FSCall) :
    (callStep remote rr st c).2 = [] ∨
    ∃ fd, (callStep remote rr st c).2 = [fd] := by
  cases c with
  | copen now path =>
      unfold callStep
      dsimp only
      rcases fsOpen st now remote path with ⟨res, st1⟩
      rcases res with e | fd
      · exact Or.inl rfl
      · exact Or.inr ⟨fd, rfl⟩
  | cread path size offset fh => exact Or.inl rfl
  | crelease path fh => exact Or.inl rfl

/-- Over any call trace, `fd_counter` never decreases, and every fd
returned by a successful open exceeds the starting counter, the returned
fds being strictly increasing along the trace. -/
theorem runCalls_fds (remote : Remote) (rr : ReadRemote) :
    ∀ (cs : List FSCall) (st : FSState),
      st.fdCounter ≤ ((runCalls remote rr st cs).1).fdCounter ∧
      (∀ fd ∈ (runCalls remote rr st cs).2, st.fdCounter < fd) ∧
      ((runCalls remote rr st cs).2).Pairwise (fun a b => a < b) := by
  intro cs
  induction cs with
  | nil =>
      intro st
      refine ⟨Nat.le_refl _, ?_, ?_⟩ <;> simp [runCalls]
  | cons c cs ih =>
      intro st
      have hs := callStep_spec remote rr st c
      have hr := ih (callStep remote rr st c).1
      have hrw : runCalls remote rr st (c :: cs) =
          ((runCalls remote rr (callStep remote rr st c).1 cs).1,
            (callStep remote rr st c).2 ++
              (runCalls remote rr (callStep remote rr st c).1 cs).2) := rfl
      rw [hrw]
      refine ⟨le_trans hs.1 hr.1, ?_, ?_⟩
      · intro fd hfd
        dsimp only at hfd
        rw [List.mem_append] at hfd
        rcases hfd with h | h
        · exact (hs.2 fd h).2
        · exact lt_of_le_of_lt hs.1 (hr.2.1 fd h)
      · dsimp only
        rw [List.pairwise_append]
        refine ⟨?_, hr.2.2, ?_⟩
        · rcases callStep_len remote rr st c with h | ⟨fd, h⟩
          · rw [h]
            exact List.Pairwise.nil
          · rw [h]
            simp
        · intro a ha b hb
          have h1 := (hs.2 a ha).1
          have h2 := hr.2.1 b hb
          rw [h1]
          exact h2

/-- C6: over every sequence of open, read and release calls, the fds
returned by successful opens are strictly increasing — each open's
handle_id exceeds every handle_id returned before it, even after earlier
handles were released — hence all returned handle_ids are distinct. -/
theorem C6_handle_ids_monotone (remote : Remote) (rr : ReadRemote)
    (st : FSState) (cs : List FSCall) :
    ((runCalls remote rr st cs).2).Pairwise (fun a b => a < b) ∧
    ((runCalls remote rr st cs).2).Nodup := by
  have h := (runCalls_fds remote rr cs st).2.2
  exact ⟨h, h.imp Nat.ne_of_lt⟩

/-- Key membership after a dict assignment: the keys are the old keys plus
possibly the assigned key. -/
theorem mem_keys_dictInsert {β : Type} (d : List (String × β)) (k a : String)
    (v : β) :
    a ∈ (dictInsert d k v).map Prod.fst ↔ a ∈ d.map Prod.fst ∨ a = k := by
  induction d with
  | nil => simp [dictInsert]
  | cons hd tl ih =>
      obtain ⟨k1, v1⟩ := hd
      by_cases h : k1 = k
      · subst h
        simp [dictInsert]
        tauto
      · simp [dictInsert, h, ih]
        tauto

/-- A dict assignment preserves uniqueness of the keys. -/
theorem nodup_keys_dictInsert {β : Type} (d : List (String × β)) (k : String)
    (v : β) (h : (d.map Prod.fst).Nodup) :
    ((dictInsert d k v).map Prod.fst).Nodup := by
  induction d with
  | nil => simp [dictInsert]
  | cons hd tl ih =>
      obtain ⟨k1, v1⟩ := hd
      rw [List.map_cons, List.nodup_cons] at h
      by_cases hk : k1 = k
      · subst hk
        simpa [dictInsert] using h
      · rw [show dictInsert ((k1, v1) :: tl) k v =
            (k1, v1) :: dictInsert tl k v from by simp [dictInsert, hk]]
        rw [List.map_cons, List.nodup_cons]
        refine ⟨?_, ih h.2⟩
        intro hmem
        rcases (mem_keys_dictInsert tl k k1 v).1 hmem with h1 | h1
        · exact h.1 h1
        · exact hk h1

/-- The structure-building fold preserves key uniqueness of the
accumulated dict. -/
theorem nodup_keys_buildStructure_from (g : String → Option (List FileInfo)) :
    ∀ (ts : List Torrent) (s : Structure), (s.map Prod.fst).Nodup →
      ((ts.foldl
        (fun s t =>
          if t.status = some ("downloaded") then
            dictInsert s (torrentDirName t)
              { id := t.id, files := buildFiles (g t.id) }
          else s) s).map Prod.fst).Nodup := by
  intro ts
  induction ts with
  | nil =>
      intro s hs
      simpa using hs
  | cons t ts ih =>
      intro s hs
      rw [List.foldl_cons]
      by_cases h : t.status = some ("downloaded")
      · rw [if_pos h]
        exact ih _ (nodup_keys_dictInsert s _ _ hs)
      · rw [if_neg h]
        exact ih _ hs

/-- C7 counterexample: two ready torrents with distinct remote ids whose
display names both sanitize to `xy` — the built snapshot holds a single
merged entry carrying only the second torrent's id, so the first job has
disappeared rather than being disambiguated. -/
theorem C7_counterexample :
    torrentDirName torrentA = "xy" ∧ torrentDirName torrentB = "xy" ∧
    torrentA.id ≠ torrentB.id ∧
    buildStructure [torrentA, torrentB] (fun _ => none) =
      [("xy", { id := "B", files := [] })] := by
  exact ⟨rfl, rfl, by decide, rfl⟩

/-- C7 (amended): every name in the built snapshot is unique within the
mapping, but colliding sanitized names are not disambiguated: of two ready
jobs with the same sanitized name the later dict assignment overwrites the
earlier entry wholesale, so the jobs merge into one entry keeping only the
later job's id and files. -/
theorem C7_collision_overwrites (g : String → Option (List FileInfo)) :
    (∀ ts : List Torrent, ((buildStructure ts g).map Prod.fst).Nodup) ∧
    (∀ t1 t2 : Torrent,
      t1.status = some ("downloaded") → t2.status = some ("downloaded") →
      torrentDirName t1 = torrentDirName t2 →
      buildStructure [t1, t2] g =
        [(torrentDirName t2,
          { id := t2.id, files := buildFiles (g t2.id) })]) := by
  constructor
  · intro ts
    exact nodup_keys_buildStructure_from g ts [] (by simp)
  · intro t1 t2 h1 h2 heq
    unfold buildStructure
    rw [List.foldl_cons, List.foldl_cons, List.foldl_nil]
    rw [if_pos h1, if_pos h2]
    simp [dictInsert, heq]

/-- C7 witness: the amended behaviour at the two concrete colliding
torrents — one entry, the later torrent's id, unique keys. -/
theorem C7_collision_overwrites_witness :
    buildStructure [torrentA, torrentB] (fun _ => none) =
      [(torrentDirName torrentB,
        { id := torrentB.id, files := buildFiles none })] ∧
    ((buildStructure [torrentA, torrentB] (fun _ => none)).map
      Prod.fst).Nodup := by
  have h := C7_collision_overwrites (fun _ => none)
  exact ⟨h.2 torrentA torrentB rfl rfl rfl, h.1 [torrentA, torrentB]⟩

/-- C10: a file stored under a nested relative path makes the job's
`readdir` list the path's first segment, yet resolving the job name plus
only that first segment yields `None` — surfaced by `getattr` as `ENOENT` —
because no intermediate subdirectory node exists: only a full relative path
present in the files dict resolves. -/
theorem C10_no_intermediate_dirs (st : FSState) (now : Nat) (remote : Remote)
    (s : Structure) (jname k seg p1 p2 : String) (d : TorrentDir)
    (f : FileNode) (rest : List String)
    (hc : st.attrCache = some s) (hf : now - st.attrCacheTime < 30)
    (hj : dictFind s jname = some d)
    (hk : dictFind d.files k = some f)
    (hsplit : pySplit k = seg :: rest) (hrest : rest ≠ [])
    (hseg : dictFind d.files seg = none)
    (hp1 : getPathParts p1 = [jname]) (hp1r : p1 ≠ "/")
    (hp2 : getPathParts p2 = [jname, seg]) (hp2r : p2 ≠ "/") :
    (∃ l, (readdir st now remote p1).1 = Except.ok l ∧ seg ∈ l) ∧
    (resolvePath st now remote p2).1 = Except.ok none ∧
    (getattr st now remote p2).1 = Except.error FSError.enoent := by
  have r1 := resolvePath_fresh st now remote s p1 hc hf hp1r
  have r2 := resolvePath_fresh st now remote s p2 hc hf hp2r
  have hres1 : resolveParts s (getPathParts p1) = some (Node.dir d) := by
    rw [hp1]
    simp [resolveParts, hj]
  have hres2 : resolveParts s (getPathParts p2) = none := by
    rw [hp2]
    simp [resolveParts, hj, intercalate_singleton, hseg]
  refine ⟨?_, ?_, ?_⟩
  · refine ⟨(readdirEntries (Node.dir d) []).dedup, ?_, ?_⟩
    · unfold readdir
      rw [r1, hres1]
    · rw [List.mem_dedup]
      unfold readdirEntries
      rw [List.mem_append]
      right
      rw [List.mem_map]
      refine ⟨(k, f), dictFind_mem d.files k f hk, ?_⟩
      dsimp only
      rw [hsplit]
      rfl
  · rw [r2, hres2]
  · unfold getattr
    rw [r2, hres2]

/-- C10 witness: the concrete nested snapshot — `readdir` of `/J` lists
`sub`, while `/J/sub` itself does not resolve. -/
theorem C10_no_intermediate_dirs_witness :
    (∃ l, (readdir stNested 0 remoteFail "/J").1 = Except.ok l ∧ "sub" ∈ l) ∧
    (resolvePath stNested 0 remoteFail "/J/sub").1 = Except.ok none ∧
    (getattr stNested 0 remoteFail "/J/sub").1 =
      Except.error FSError.enoent := by
  exact C10_no_intermediate_dirs stNested 0 remoteFail [("J", dirNested)]
    ("J") ("sub/movie.mkv") ("sub") ("/J") ("/J/sub") dirNested fileLinked
    ["movie.mkv"] rfl (by decide) rfl rfl rfl (by decide) rfl rfl (by decide)
    rfl (by decide)

end RealDebrid
